import Mathlib

/-!
Verification of the RAG orchestration logic of the GasGridBot Streamlit app
(src/app.py), shallowly embedded: the remote clients (embedding, vector
search, chat completion) are oracles that may fail, and each turn records the
calls it makes so that call-count properties can be stated.
-/

namespace GasGridBot

/-- A character removed by Python str.strip (ASCII whitespace). -/
def isPyWhitespace (c : Char) : Bool :=
  c == ' ' || c == '\t' || c == '\n' || c == '\r' || c == '\x0b' || c == '\x0c'

/-- Python str.strip: drop leading and trailing whitespace. -/
def pyStrip (s : String) : String :=
  String.mk (((s.data.dropWhile isPyWhitespace).reverse.dropWhile isPyWhitespace).reverse)

/-- A document returned by the Vector Search Client with the selected fields
content and source; a field may be absent, and the code reads it through
r.get(field, "") with default. -/
structure Doc where
  content : Option String
  source : Option String
deriving DecidableEq

/-- A role-tagged chat message, as in the message dicts of src/app.py and in
st.session_state.messages. -/
structure Message where
  role : String
  content : String
deriving DecidableEq

/-- The argument record of an openai.ChatCompletion.create call: engine,
messages, temperature (a rational; 0 or 0.3 in the source), max_tokens. -/
structure ChatRequest where
  engine : String
  messages : List Message
  temperature : ℚ
  maxTokens : ℕ
deriving DecidableEq

/-- One remote-client invocation recorded in a turn trace. -/
inductive CallEvent where
  | embedCall (input : String)
  | searchCall (vector : List ℤ) (top : ℕ)
  | chatCall (req : ChatRequest)
deriving DecidableEq

/-- The three remote collaborators, as oracles that either answer or raise
(Except.error models a raised exception carried to the except-block). -/
structure Clients where
  embed : String → Except String (List ℤ)
  search : List ℤ → ℕ → Except String (List Doc)
  complete : ChatRequest → Except String String

/-- The chat requests among a list of recorded calls. -/
def chatCallsOf (calls : List CallEvent) : List ChatRequest :=
  calls.filterMap fun e =>
    match e with
    | CallEvent.chatCall r => some r
    | _ => none

/-- The for-loop body of retrieve_context: keep content and source of each
result whose content (read with default "") is truthy, i.e. non-empty, in
ranked order. -/
def retrieveLoop : List Doc → List String × List String
  | [] => ([], [])
  | r :: rs =>
    let content := r.content.getD ""
    let source := r.source.getD ""
    let rest := retrieveLoop rs
    if content == "" then rest else (content :: rest.1, source :: rest.2)

/-- retrieve_context of src/app.py: embed the query, search with the
embedding and top_k, then join the kept contents with a blank line and pair
them with the kept sources.  Also returns the trace of client calls made. -/
def retrieve_context (c : Clients) (query : String) (top_k : ℕ) :
    Except String (String × List String) × List CallEvent :=
  match c.embed query with
  | Except.error e => (Except.error e, [CallEvent.embedCall query])
  | Except.ok emb =>
    match c.search emb top_k with
    | Except.error e =>
      (Except.error e, [CallEvent.embedCall query, CallEvent.searchCall emb top_k])
    | Except.ok results =>
      let cs := retrieveLoop results
      (Except.ok (String.intercalate "\n\n" cs.1, cs.2),
       [CallEvent.embedCall query, CallEvent.searchCall emb top_k])

/-- The default system message of answer_with_context (two adjacent Python
string literals concatenated). -/
def defaultSystemMsg : String :=
  "You are GasGridBot, an assistant that answers ONLY from the provided context. If the answer is not in the context, say you don\x27t know."

/-- answer_with_context of src/app.py: build the grounded two-message prompt
(system hint falling back to the default when None or empty, then the
Context/Question user message) and call the Chat Completion Client once. -/
def answer_with_context (c : Clients) (chat_deployment user_query context_text : String)
    (temperature : ℚ) (max_tokens : ℕ) (system_hint : Option String) :
    Except String String × List CallEvent :=
  let sys_msg :=
    match system_hint with
    | some s => if s == "" then defaultSystemMsg else s
    | none => defaultSystemMsg
  let req : ChatRequest :=
    ⟨chat_deployment,
      [⟨"system", sys_msg⟩,
       ⟨"user", "Context:\n" ++ context_text ++ "\n\nQuestion: " ++ user_query⟩],
      temperature, max_tokens⟩
  (c.complete req, [CallEvent.chatCall req])

/-- The fixed guardrail fallback reply of the RAG branch. -/
def fallbackReply : String :=
  "I don\x27t have relevant context in the indexed documents to answer this."

/-- The two bot modes of the sidebar radio toggle. -/
inductive Mode where
  | rag
  | general
deriving DecidableEq

/-- Everything one chat-input turn produces: the session message list after
the turn, the bot reply, the sources shown in the expander (none when the
`if sources:` guard fails or an exception was raised), the surfaced
exception detail if any, and the trace of client calls. -/
structure TurnOutput where
  messagesAfter : List Message
  botReply : String
  displayedSources : Option (List String)
  errorSurfaced : Option String
  calls : List CallEvent
deriving DecidableEq

/-- The chat input handler of src/app.py (the `if user_query:` block): append
the user turn, run the selected mode inside try/except (RAG: retrieve, guard
on stripped-empty context, else answer with context at temperature 0 and 600
max tokens; general: one completion at temperature 0.3), on exception surface
the error and set the reply to "Error.", and finally append the assistant
turn. -/
def handleTurn (c : Clients) (chat_deployment : String) (mode : Mode)
    (messages : List Message) (user_query : String) : TurnOutput :=
  let msgs1 := messages ++ [⟨"user", user_query⟩]
  match mode with
  | Mode.rag =>
    match retrieve_context c user_query 3 with
    | (Except.error e, rcalls) =>
      ⟨msgs1 ++ [⟨"assistant", "Error."⟩], "Error.", none, some e, rcalls⟩
    | (Except.ok ctxsrc, rcalls) =>
      let context_text := ctxsrc.1
      let sources := ctxsrc.2
      if pyStrip context_text == "" then
        ⟨msgs1 ++ [⟨"assistant", fallbackReply⟩], fallbackReply,
          if sources.isEmpty then none else some sources, none, rcalls⟩
      else
        match answer_with_context c chat_deployment user_query context_text 0 600 none with
        | (Except.error e, acalls) =>
          ⟨msgs1 ++ [⟨"assistant", "Error."⟩], "Error.", none, some e, rcalls ++ acalls⟩
        | (Except.ok reply, acalls) =>
          ⟨msgs1 ++ [⟨"assistant", reply⟩], reply,
            if sources.isEmpty then none else some sources, none, rcalls ++ acalls⟩
  | Mode.general =>
    let req : ChatRequest :=
      ⟨chat_deployment,
        [⟨"system", "You are a helpful assistant."⟩, ⟨"user", user_query⟩],
        3 / 10, 600⟩
    match c.complete req with
    | Except.error e =>
      ⟨msgs1 ++ [⟨"assistant", "Error."⟩], "Error.", none, some e, [CallEvent.chatCall req]⟩
    | Except.ok reply =>
      ⟨msgs1 ++ [⟨"assistant", reply⟩], reply, none, none, [CallEvent.chatCall req]⟩

/-- The startup configuration record read from st.secrets in src/app.py,
in reading order. -/
structure AppConfig where
  apiBase : String
  apiKey : String
  apiVersion : String
  embeddingDeployment : String
  chatDeployment : String
  searchEndpoint : String
  searchIndexName : String
  searchKey : String
deriving DecidableEq

/-- The configuration keys read with subscripting (KeyError when absent) at
startup: four openai settings plus the three SearchClient settings of
get_search_client, which runs at startup. -/
def requiredKeys : List String :=
  ["AZURE_OPENAI_ENDPOINT", "AZURE_OPENAI_KEY", "AZURE_EMBEDDING_DEPLOYMENT",
   "AZURE_CHAT_DEPLOYMENT", "AZURE_SEARCH_ENDPOINT", "AZURE_SEARCH_INDEX_NAME",
   "AZURE_SEARCH_KEY"]

/-- The startup configuration reads of src/app.py: each cfg[k] subscript
raises KeyError when k is absent, while AZURE_OPENAI_API_VERSION is read with
cfg.get and the default "2023-05-15".  Reads happen in source order. -/
def loadConfig (cfg : String → Option String) : Except String AppConfig :=
  match cfg "AZURE_OPENAI_ENDPOINT" with
  | none => Except.error "KeyError: AZURE_OPENAI_ENDPOINT"
  | some apiBase =>
  match cfg "AZURE_OPENAI_KEY" with
  | none => Except.error "KeyError: AZURE_OPENAI_KEY"
  | some apiKey =>
  let apiVersion := (cfg "AZURE_OPENAI_API_VERSION").getD "2023-05-15"
  match cfg "AZURE_EMBEDDING_DEPLOYMENT" with
  | none => Except.error "KeyError: AZURE_EMBEDDING_DEPLOYMENT"
  | some embeddingDeployment =>
  match cfg "AZURE_CHAT_DEPLOYMENT" with
  | none => Except.error "KeyError: AZURE_CHAT_DEPLOYMENT"
  | some chatDeployment =>
  match cfg "AZURE_SEARCH_ENDPOINT" with
  | none => Except.error "KeyError: AZURE_SEARCH_ENDPOINT"
  | some searchEndpoint =>
  match cfg "AZURE_SEARCH_INDEX_NAME" with
  | none => Except.error "KeyError: AZURE_SEARCH_INDEX_NAME"
  | some searchIndexName =>
  match cfg "AZURE_SEARCH_KEY" with
  | none => Except.error "KeyError: AZURE_SEARCH_KEY"
  | some searchKey =>
  Except.ok ⟨apiBase, apiKey, apiVersion, embeddingDeployment, chatDeployment,
    searchEndpoint, searchIndexName, searchKey⟩

/-! ## Helper lemmas -/

/-- The retrieve loop keeps exactly the documents with non-empty content, in
order, and maps them to their contents resp. their sources (with default ""). -/
theorem retrieveLoop_eq (docs : List Doc) :
    retrieveLoop docs =
      ((docs.filter fun r => !(r.content.getD "" == "")).map (fun r => r.content.getD ""),
       (docs.filter fun r => !(r.content.getD "" == "")).map (fun r => r.source.getD "")) := by
  induction docs with
  | nil => rfl
  | cons r rs ih =>
    simp only [retrieveLoop, List.filter_cons, ih]
    by_cases h : r.content.getD "" == "" <;> simp [h]

/-- retrieve_context makes no chat-completion call. -/
theorem retrieve_context_no_chat (c : Clients) (q : String) (k : ℕ) :
    chatCallsOf (retrieve_context c q k).2 = [] := by
  rcases h1 : c.embed q with e | emb
  · simp [retrieve_context, h1, chatCallsOf]
  · rcases h2 : c.search emb k with e | results
    · simp [retrieve_context, h1, h2, chatCallsOf]
    · simp [retrieve_context, h1, h2, chatCallsOf]

/-- The one chat request recorded by answer_with_context when no system hint
is passed (as in the RAG handler). -/
theorem answer_with_context_trace (c : Clients) (d q ctx : String) (t : ℚ) (mt : ℕ) :
    chatCallsOf (answer_with_context c d q ctx t mt none).2 =
      [⟨d, [⟨"system", defaultSystemMsg⟩,
            ⟨"user", "Context:\n" ++ ctx ++ "\n\nQuestion: " ++ q⟩], t, mt⟩] := rfl

/-- If loadConfig succeeds, every required key was present. -/
theorem loadConfig_requires (cfg : String → Option String) (a : AppConfig)
    (hok : loadConfig cfg = Except.ok a) :
    ∀ k ∈ requiredKeys, (cfg k).isSome := by
  simp only [loadConfig] at hok
  split at hok
  · simp at hok
  · split at hok
    · simp at hok
    · split at hok
      · simp at hok
      · split at hok
        · simp at hok
        · split at hok
          · simp at hok
          · split at hok
            · simp at hok
            · split at hok
              · simp at hok
              · intro k hk
                fin_cases hk <;> simp_all

/-! ## Claims -/

/-- C2: for every ranked list of documents returned by the Vector Search
Client, retrieve_context returns the blank-line-joined contents of exactly
the documents with non-empty content, in ranked order, paired with the
source fields of exactly those documents in the same order, duplicates
preserved. -/
theorem C2_retrieve_context_filter_join (c : Clients) (q : String) (emb : List ℤ)
    (k : ℕ) (docs : List Doc)
    (h1 : c.embed q = Except.ok emb) (h2 : c.search emb k = Except.ok docs) :
    (retrieve_context c q k).1 =
      Except.ok
        (String.intercalate "\n\n"
          ((docs.filter fun r => !(r.content.getD "" == "")).map fun r => r.content.getD ""),
         (docs.filter fun r => !(r.content.getD "" == "")).map fun r => r.source.getD "") := by
  simp [retrieve_context, h1, h2, retrieveLoop_eq]

/-- Concrete clients whose search returns one kept document, one
empty-content document, one absent-content document, and a second kept
document repeating the first source. -/
def c2WitClients : Clients :=
  ⟨fun _ => Except.ok [2],
   fun _ _ => Except.ok
     [⟨some "a", some "s"⟩, ⟨some "", some "t"⟩, ⟨none, some "u"⟩, ⟨some "b", some "s"⟩],
   fun _ => Except.ok "r"⟩

/-- Witness for C2 at concrete clients: empty- and absent-content documents
are dropped, duplicate sources are preserved in order. -/
theorem C2_witness :
    (retrieve_context c2WitClients "q" 3).1 = Except.ok ("a\n\nb", ["s", "s"]) :=
  (C2_retrieve_context_filter_join c2WitClients "q" [2] 3
    [⟨some "a", some "s"⟩, ⟨some "", some "t"⟩, ⟨none, some "u"⟩, ⟨some "b", some "s"⟩]
    rfl rfl).trans (by rfl)

/-- Concrete clients whose search returns the fixed hydrotest context. -/
def c5WitClients : Clients :=
  ⟨fun _ => Except.ok [1],
   fun _ _ => Except.ok [⟨some "Max pressure: 1480 psi, hold time: 8h", some "doc"⟩],
   fun _ => Except.ok "r"⟩

/-- C5: the final user message of the grounded prompt is exactly
"Context:\n" ++ context_text ++ "\n\nQuestion: " ++ user_query, and at the
fixed hydrotest context and question it equals exactly the expected string,
end to end through the RAG handler. -/
theorem C5_final_user_message :
    (∀ (c : Clients) (d q ctx : String) (t : ℚ) (mt : ℕ),
      (chatCallsOf (answer_with_context c d q ctx t mt none).2).map
          (fun r => (r.messages.map Message.content).getLastD "") =
        ["Context:\n" ++ ctx ++ "\n\nQuestion: " ++ q]) ∧
    (chatCallsOf (handleTurn c5WitClients "chat" Mode.rag []
          "What was the max hydrotest pressure?").calls).map
        (fun r => (r.messages.map Message.content).getLastD "") =
      ["Context:\nMax pressure: 1480 psi, hold time: 8h\n\nQuestion: What was the max hydrotest pressure?"] := by
  refine ⟨fun c d q ctx t mt => rfl, rfl⟩

/-- Concrete clients: one document with non-empty content and absent source. -/
def c10aClients : Clients :=
  ⟨fun _ => Except.ok [1], fun _ _ => Except.ok [⟨some "x", none⟩], fun _ => Except.ok "r"⟩

/-- Concrete clients: one document with whitespace-only content. -/
def c10bClients : Clients :=
  ⟨fun _ => Except.ok [1], fun _ _ => Except.ok [⟨some " ", some "a"⟩], fun _ => Except.ok "r"⟩

/-- C10: a kept document with absent source contributes "" to the sources
list, and a whitespace-only (hence truthy) content is kept, so the fallback
branch can run with a non-empty sources list and no chat call. -/
theorem C10_absent_source_whitespace_content :
    (retrieve_context c10aClients "q" 3).1 = Except.ok ("x", [""]) ∧
    (handleTurn c10bClients "chat" Mode.rag [] "q").botReply = fallbackReply ∧
    (handleTurn c10bClients "chat" Mode.rag [] "q").displayedSources = some ["a"] ∧
    chatCallsOf (handleTurn c10bClients "chat" Mode.rag [] "q").calls = [] :=
  ⟨rfl, rfl, rfl, rfl⟩

/-- C9: every submitted turn, in either mode, appends exactly the user turn
followed by one assistant turn to the session message list; when an exception
was surfaced the assistant turn content is exactly "Error.". -/
theorem C9_exactly_two_turns_appended (c : Clients) (d : String) (mode : Mode)
    (m : List Message) (q : String) :
    (handleTurn c d mode m q).messagesAfter =
      m ++ [⟨"user", q⟩, ⟨"assistant", (handleTurn c d mode m q).botReply⟩] ∧
    ((handleTurn c d mode m q).errorSurfaced = none ∨
      (handleTurn c d mode m q).botReply = "Error.") := by
  cases mode
  · simp only [handleTurn]
    split
    · exact ⟨by simp, Or.inr rfl⟩
    · split
      · exact ⟨by simp, Or.inl rfl⟩
      · split
        · exact ⟨by simp, Or.inr rfl⟩
        · exact ⟨by simp, Or.inl rfl⟩
  · simp only [handleTurn]
    split
    · exact ⟨by simp, Or.inr rfl⟩
    · exact ⟨by simp, Or.inl rfl⟩

/-- C6: every chat request made during a RAG-mode turn has temperature 0 and
max-token budget 600. -/
theorem C6_rag_temperature_zero_budget_600 (c : Clients) (d : String)
    (m : List Message) (q : String) (r : ChatRequest)
    (hr : r ∈ chatCallsOf (handleTurn c d Mode.rag m q).calls) :
    r.temperature = 0 ∧ r.maxTokens = 600 := by
  simp only [handleTurn] at hr
  split at hr
  · rename_i e rcalls h
    rw [show rcalls = (retrieve_context c q 3).2 by rw [h]] at hr
    rw [retrieve_context_no_chat] at hr
    exact absurd hr (List.not_mem_nil r)
  · rename_i ctxsrc rcalls h
    split at hr
    · rw [show rcalls = (retrieve_context c q 3).2 by rw [h]] at hr
      rw [retrieve_context_no_chat] at hr
      exact absurd hr (List.not_mem_nil r)
    · split at hr
      all_goals
        rename_i res acalls h2
        rw [show rcalls = (retrieve_context c q 3).2 by rw [h],
            show acalls = (answer_with_context c d q ctxsrc.1 0 600 none).2 by rw [h2]] at hr
        rw [chatCallsOf, List.filterMap_append, ← chatCallsOf, ← chatCallsOf,
            retrieve_context_no_chat, answer_with_context_trace] at hr
        simp only [List.nil_append, List.mem_singleton] at hr
        subst hr
        exact ⟨rfl, rfl⟩

/-- Concrete clients for the C6 witness: retrieval succeeds with usable
context so the handler makes one chat call. -/
def c6WitClients : Clients :=
  ⟨fun _ => Except.ok [1], fun _ _ => Except.ok [⟨some "ctx", some "s"⟩],
   fun _ => Except.ok "ans"⟩

/-- Witness for C6: the one chat request of a concrete RAG turn has
temperature 0 and max tokens 600. -/
theorem C6_witness :
    ((⟨"chat", [⟨"system", defaultSystemMsg⟩,
        ⟨"user", "Context:\nctx\n\nQuestion: q"⟩], 0, 600⟩ : ChatRequest).temperature = 0 ∧
     (⟨"chat", [⟨"system", defaultSystemMsg⟩,
        ⟨"user", "Context:\nctx\n\nQuestion: q"⟩], 0, 600⟩ : ChatRequest).maxTokens = 600) :=
  C6_rag_temperature_zero_budget_600 c6WitClients "chat" [] "q" _ (by rw [show
    chatCallsOf (handleTurn c6WitClients "chat" Mode.rag [] "q").calls =
      [⟨"chat", [⟨"system", defaultSystemMsg⟩,
        ⟨"user", "Context:\nctx\n\nQuestion: q"⟩], 0, 600⟩] from rfl]; exact List.mem_singleton.mpr rfl)

/-- C7: a non-RAG turn makes exactly one client call, a chat completion with
precisely the generic system prompt and the raw user query at temperature
3/10 and 600 max tokens; in particular the Embedding Client and Vector
Search Client are never called. -/
theorem C7_general_mode_passthrough (c : Clients) (d : String)
    (m : List Message) (q : String) :
    (handleTurn c d Mode.general m q).calls =
      [CallEvent.chatCall
        ⟨d, [⟨"system", "You are a helpful assistant."⟩, ⟨"user", q⟩], 3 / 10, 600⟩] := by
  simp only [handleTurn]
  split <;> rfl

/-- C8: with every required key present and AZURE_OPENAI_API_VERSION absent,
startup succeeds with api version defaulted to "2023-05-15"; and whenever any
of the seven required keys is absent, startup fails. -/
theorem C8_api_version_default_required_keys (cfg : String → Option String)
    (v1 v2 v4 v5 v6 v7 v8 : String)
    (h1 : cfg "AZURE_OPENAI_ENDPOINT" = some v1)
    (h2 : cfg "AZURE_OPENAI_KEY" = some v2)
    (hv : cfg "AZURE_OPENAI_API_VERSION" = none)
    (h4 : cfg "AZURE_EMBEDDING_DEPLOYMENT" = some v4)
    (h5 : cfg "AZURE_CHAT_DEPLOYMENT" = some v5)
    (h6 : cfg "AZURE_SEARCH_ENDPOINT" = some v6)
    (h7 : cfg "AZURE_SEARCH_INDEX_NAME" = some v7)
    (h8 : cfg "AZURE_SEARCH_KEY" = some v8) :
    loadConfig cfg = Except.ok ⟨v1, v2, "2023-05-15", v4, v5, v6, v7, v8⟩ ∧
    ∀ (cfg2 : String → Option String) (a : AppConfig), ∀ k ∈ requiredKeys,
      cfg2 k = none → loadConfig cfg2 ≠ Except.ok a := by
  refine ⟨by simp [loadConfig, h1, h2, hv, h4, h5, h6, h7, h8], ?_⟩
  intro cfg2 a k hk hnone hok
  have hsome := loadConfig_requires cfg2 a hok k hk
  rw [hnone] at hsome
  simp at hsome

/-- A configuration with every key present except the api version. -/
def cfgWitnessC8 : String → Option String :=
  fun k => if k = "AZURE_OPENAI_API_VERSION" then none else some k

/-- Witness for C8: the concrete configuration without a version key loads
with the default version, and the empty configuration does not load. -/
theorem C8_witness :
    loadConfig cfgWitnessC8 =
      Except.ok ⟨"AZURE_OPENAI_ENDPOINT", "AZURE_OPENAI_KEY", "2023-05-15",
        "AZURE_EMBEDDING_DEPLOYMENT", "AZURE_CHAT_DEPLOYMENT", "AZURE_SEARCH_ENDPOINT",
        "AZURE_SEARCH_INDEX_NAME", "AZURE_SEARCH_KEY"⟩ ∧
    loadConfig (fun _ => none) ≠ Except.ok ⟨"", "", "", "", "", "", "", ""⟩ := by
  have h := C8_api_version_default_required_keys cfgWitnessC8
    "AZURE_OPENAI_ENDPOINT" "AZURE_OPENAI_KEY" "AZURE_EMBEDDING_DEPLOYMENT"
    "AZURE_CHAT_DEPLOYMENT" "AZURE_SEARCH_ENDPOINT" "AZURE_SEARCH_INDEX_NAME"
    "AZURE_SEARCH_KEY" rfl rfl rfl rfl rfl rfl rfl rfl
  exact ⟨h.1, h.2 (fun _ => none) ⟨"", "", "", "", "", "", "", ""⟩
    "AZURE_OPENAI_ENDPOINT" (by simp [requiredKeys]) rfl⟩

/-- Concrete clients: search returns a single document whose content is one
space (truthy, hence kept) with source "a". -/
def c1CexClients : Clients :=
  ⟨fun _ => Except.ok [1], fun _ _ => Except.ok [⟨some " ", some "a"⟩],
   fun _ => Except.ok "r"⟩

/-- C1 counterexample: with a whitespace-only document the context is empty
after trimming, so the fallback reply is returned and no chat call happens,
yet the sources list is ["a"], not empty — refuting the claim that the turn
returns an empty sources list whenever the trimmed context is empty. -/
theorem C1_counterexample :
    (handleTurn c1CexClients "chat" Mode.rag [] "q").botReply = fallbackReply ∧
    chatCallsOf (handleTurn c1CexClients "chat" Mode.rag [] "q").calls = [] ∧
    (handleTurn c1CexClients "chat" Mode.rag [] "q").displayedSources = some ["a"] ∧
    (retrieve_context c1CexClients "q" 3).1 = Except.ok (" ", ["a"]) :=
  ⟨rfl, rfl, rfl, rfl⟩

/-- C1 amended: when retrieval succeeds, the Chat Completion Client is
invoked exactly once iff the concatenated context is non-empty after
trimming; when it is empty after trimming the turn returns the fixed
fallback reply and makes no chat call, and the sources list is that of the
kept documents, which may be non-empty. -/
theorem C1_amended_guardrail (c : Clients) (d q : String) (m : List Message)
    (emb : List ℤ) (docs : List Doc)
    (h1 : c.embed q = Except.ok emb) (h2 : c.search emb 3 = Except.ok docs) :
    ((chatCallsOf (handleTurn c d Mode.rag m q).calls).length =
      if pyStrip (String.intercalate "\n\n" (retrieveLoop docs).1) = "" then 0 else 1) ∧
    (pyStrip (String.intercalate "\n\n" (retrieveLoop docs).1) = "" →
      (handleTurn c d Mode.rag m q).botReply = fallbackReply ∧
      (handleTurn c d Mode.rag m q).displayedSources =
        (if (retrieveLoop docs).2.isEmpty then none else some (retrieveLoop docs).2)) := by
  have hrc : retrieve_context c q 3 =
      (Except.ok (String.intercalate "\n\n" (retrieveLoop docs).1, (retrieveLoop docs).2),
       [CallEvent.embedCall q, CallEvent.searchCall emb 3]) := by
    simp [retrieve_context, h1, h2]
  by_cases hg : pyStrip (String.intercalate "\n\n" (retrieveLoop docs).1) = ""
  · simp [handleTurn, hrc, hg, chatCallsOf]
  · simp only [handleTurn, hrc, answer_with_context]
    constructor
    · split
      · rename_i h
        simp [beq_iff_eq, hg] at h
      · split <;>
          (rename_i heq
           injection heq with hfst hsnd
           subst hsnd
           simp [chatCallsOf, hg])
    · intro h
      exact absurd h hg

/-- Concrete clients for the C1 witness: search returns one document with
empty content and one with absent content, so nothing is kept. -/
def c1WitClients : Clients :=
  ⟨fun _ => Except.ok [1],
   fun _ _ => Except.ok [⟨some "", some "t"⟩, ⟨none, some "u"⟩],
   fun _ => Except.ok "r"⟩

/-- Witness for C1 amended: with only unusable documents the turn makes no
chat call, replies with the fallback, and shows no sources. -/
theorem C1_witness :
    (chatCallsOf (handleTurn c1WitClients "chat" Mode.rag [] "q").calls).length = 0 ∧
    (handleTurn c1WitClients "chat" Mode.rag [] "q").botReply = fallbackReply ∧
    (handleTurn c1WitClients "chat" Mode.rag [] "q").displayedSources = none := by
  have h := C1_amended_guardrail c1WitClients "chat" "q" [] [1]
    [⟨some "", some "t"⟩, ⟨none, some "u"⟩] rfl rfl
  have h2 := h.2 (by rfl)
  exact ⟨by rw [h.1]; rfl, h2.1, by rw [h2.2]; rfl⟩

/-- Concrete clients for the C3 counterexample: retrieval succeeds with
context "ctx". -/
def c3CexClients : Clients :=
  ⟨fun _ => Except.ok [1], fun _ _ => Except.ok [⟨some "ctx", some "s"⟩],
   fun _ => Except.ok "ans"⟩

/-- A 10-turn conversation history. -/
def c3History : List Message :=
  [⟨"user", "t1"⟩, ⟨"assistant", "t2"⟩, ⟨"user", "t3"⟩, ⟨"assistant", "t4"⟩,
   ⟨"user", "t5"⟩, ⟨"assistant", "t6"⟩, ⟨"user", "t7"⟩, ⟨"assistant", "t8"⟩,
   ⟨"user", "t9"⟩, ⟨"assistant", "t10"⟩]

/-- C3 counterexample: on a RAG turn with a 10-turn history and non-empty
context, the one chat request consists only of the system grounding message
and the final user message — none of turns 5 to 10 (for example turn 5) is
replayed into the prompt, refuting the history-replay claim. -/
theorem C3_counterexample :
    (chatCallsOf (handleTurn c3CexClients "chat" Mode.rag c3History "q").calls).map
        ChatRequest.messages =
      [[⟨"system", defaultSystemMsg⟩, ⟨"user", "Context:\nctx\n\nQuestion: q"⟩]] ∧
    (⟨"user", "t5"⟩ : Message) ∉
      ((chatCallsOf (handleTurn c3CexClients "chat" Mode.rag c3History "q").calls).map
          ChatRequest.messages).flatten :=
  ⟨rfl, by decide⟩

/-- C3 amended: on every RAG turn with non-empty trimmed context, the
grounded prompt is exactly the fixed system grounding message followed by
the final Context/Question user message; no history entries are replayed. -/
theorem C3_amended_no_history_replay (c : Clients) (d q : String) (m : List Message)
    (emb : List ℤ) (docs : List Doc)
    (h1 : c.embed q = Except.ok emb) (h2 : c.search emb 3 = Except.ok docs)
    (hne : ¬ pyStrip (String.intercalate "\n\n" (retrieveLoop docs).1) = "") :
    (chatCallsOf (handleTurn c d Mode.rag m q).calls).map ChatRequest.messages =
      [[⟨"system", defaultSystemMsg⟩,
        ⟨"user", "Context:\n" ++ String.intercalate "\n\n" (retrieveLoop docs).1 ++
          "\n\nQuestion: " ++ q⟩]] := by
  have hrc : retrieve_context c q 3 =
      (Except.ok (String.intercalate "\n\n" (retrieveLoop docs).1, (retrieveLoop docs).2),
       [CallEvent.embedCall q, CallEvent.searchCall emb 3]) := by
    simp [retrieve_context, h1, h2]
  simp only [handleTurn, hrc, answer_with_context]
  split
  · rename_i h
    simp [beq_iff_eq, hne] at h
  · split <;>
      (rename_i heq
       injection heq with hfst hsnd
       subst hsnd
       simp [chatCallsOf])

/-- Witness for C3 amended: concrete prompt messages of a RAG turn with a
non-empty history. -/
theorem C3_witness :
    (chatCallsOf (handleTurn c3CexClients "chat" Mode.rag
        [⟨"user", "old"⟩, ⟨"assistant", "oldans"⟩] "q").calls).map ChatRequest.messages =
      [[⟨"system", defaultSystemMsg⟩, ⟨"user", "Context:\nctx\n\nQuestion: q"⟩]] :=
  (C3_amended_no_history_replay c3CexClients "chat" "q"
    [⟨"user", "old"⟩, ⟨"assistant", "oldans"⟩] [1] [⟨some "ctx", some "s"⟩]
    rfl rfl (by decide)).trans (by rfl)

/-- Concrete clients whose Embedding Client raises. -/
def c4CexClients : Clients :=
  ⟨fun _ => Except.error "boom", fun _ _ => Except.ok [], fun _ => Except.ok "r"⟩

/-- C4 counterexample: when the Embedding Client raises, the error is
surfaced and no search or chat call happens, yet the Conversation History IS
updated — the user turn and an assistant "Error." turn are appended —
refuting the claim that the history is not updated on a failed exchange. -/
theorem C4_counterexample :
    (handleTurn c4CexClients "chat" Mode.rag [⟨"user", "p"⟩, ⟨"assistant", "pr"⟩] "q").errorSurfaced
        = some "boom" ∧
    (handleTurn c4CexClients "chat" Mode.rag [⟨"user", "p"⟩, ⟨"assistant", "pr"⟩] "q").calls
        = [CallEvent.embedCall "q"] ∧
    (handleTurn c4CexClients "chat" Mode.rag [⟨"user", "p"⟩, ⟨"assistant", "pr"⟩] "q").messagesAfter
        = [⟨"user", "p"⟩, ⟨"assistant", "pr"⟩, ⟨"user", "q"⟩, ⟨"assistant", "Error."⟩] :=
  ⟨rfl, rfl, rfl⟩

/-- C4 amended: a client exception aborts the turn (an embedding failure
prevents any search or completion call; a search failure prevents any
completion call), the error detail is surfaced with the reply "Error.", and
the Conversation History IS updated with the user turn followed by an
assistant turn whose content is "Error.". -/
theorem C4_amended_failure_handling (c : Clients) (d : String) (m : List Message)
    (q e : String) :
    (c.embed q = Except.error e →
      handleTurn c d Mode.rag m q =
        ⟨m ++ [⟨"user", q⟩, ⟨"assistant", "Error."⟩], "Error.", none, some e,
          [CallEvent.embedCall q]⟩) ∧
    (∀ emb : List ℤ, c.embed q = Except.ok emb → c.search emb 3 = Except.error e →
      handleTurn c d Mode.rag m q =
        ⟨m ++ [⟨"user", q⟩, ⟨"assistant", "Error."⟩], "Error.", none, some e,
          [CallEvent.embedCall q, CallEvent.searchCall emb 3]⟩) ∧
    ((handleTurn c d Mode.rag m q).errorSurfaced = some e →
      (handleTurn c d Mode.rag m q).botReply = "Error." ∧
      (handleTurn c d Mode.rag m q).messagesAfter =
        m ++ [⟨"user", q⟩, ⟨"assistant", "Error."⟩]) := by
  refine ⟨?_, ?_, ?_⟩
  · intro h
    simp [handleTurn, retrieve_context, h]
  · intro emb h1 h2
    simp [handleTurn, retrieve_context, h1, h2]
  · simp only [handleTurn]
    split
    · intro hs
      exact ⟨rfl, by simp⟩
    · split
      · intro hs
        simp at hs
      · split
        · intro hs
          exact ⟨rfl, by simp⟩
        · intro hs
          simp at hs

/-- Witness for C4 amended: the concrete embedding failure aborts before any
search or chat call and appends the user and "Error." turns. -/
theorem C4_witness :
    handleTurn c4CexClients "chat" Mode.rag [⟨"user", "p"⟩] "q" =
      ⟨[⟨"user", "p"⟩, ⟨"user", "q"⟩, ⟨"assistant", "Error."⟩], "Error.", none,
        some "boom", [CallEvent.embedCall "q"]⟩ :=
  (C4_amended_failure_handling c4CexClients "chat" [⟨"user", "p"⟩] "q" "boom").1 rfl

end GasGridBot
